import Mathlib

/-!
Verification of the widget-constructor and navigation layer of the
Streamlit excerpt (files `lib/streamlit/elements/widgets/button.py` and
`lib/streamlit/commands/navigation.py`).

Conventions of the shallow embedding:
* Python exceptions (`StreamlitAPIException`, `ValueError` from `list.index`,
  `IndexError` from out-of-range subscripts) are modelled with `Option`
  (`none` = the exception escapes) or `Except StreamlitAPIException`.
* Python `None` appearing as a *value* is modelled with `Option` as well;
  where one function mixes both readings the doc comment of the definition
  says which layer is which.
* Python lists are Lean `List`s, Python `dict`s (insertion ordered) are
  association `List`s of pairs.
-/

/-- A `streamlit.errors.StreamlitAPIException`, carrying its message. -/
structure StreamlitAPIException where
  msg : String
deriving DecidableEq, Repr

/-- Python `list.index(a)`: the index of the first occurrence of `a`, or
`none` when `a` is absent (Python raises `ValueError` there). -/
def pyIndex {α : Type} [DecidableEq α] : List α → α → Option Nat
  | [], _ => none
  | x :: xs, a => if x = a then some 0 else (pyIndex xs a).map (· + 1)

/-- A Python list comprehension `[f x for x in l]` whose body `f` may raise:
the first exception aborts the whole comprehension (`none`). -/
def mapOption {α β : Type} (f : α → Option β) : List α → Option (List β)
  | [] => some []
  | x :: xs =>
    match f x with
    | none => none
    | some y => (mapOption f xs).map (y :: ·)

/-- `ButtonSerde` (button.py lines 77-83). `serialize` is `bool(v)`;
`deserialize` is `ui_value or False` on a `bool | None` input. -/
structure ButtonSerde where

/-- `ButtonSerde.serialize`: `bool(v)` on a `bool` is the identity. -/
def ButtonSerde.serialize (_s : ButtonSerde) (v : Bool) : Bool := v

/-- `ButtonSerde.deserialize`: `ui_value or False`. Python `or` returns the
left operand when it is truthy (`True`) and the right operand (`False`)
otherwise; `None` and `False` are both falsy. -/
def ButtonSerde.deserialize (_s : ButtonSerde) (ui_value : Option Bool) : Bool :=
  match ui_value with
  | none => false
  | some b => b || false

/-- `ButtonGroupOptionsSerde` (button.py lines 94-113): maps between
domain values (strings from `options`) and wire-level index lists. -/
structure ButtonGroupOptionsSerde where
  options : List String
  default_value : List Nat
deriving DecidableEq, Repr

/-- `ButtonGroupOptionsSerde.serialize`: `[]` on `None`, otherwise
`[self.options.index(val) for val in value]`. The input `Option` is
Python `None`; the output `Option` is the possible `ValueError` of
`list.index` (`none` = exception). -/
def ButtonGroupOptionsSerde.serialize (s : ButtonGroupOptionsSerde)
    (value : Option (List String)) : Option (List Nat) :=
  match value with
  | none => some []
  | some v => mapOption (fun val => pyIndex s.options val) v

/-- `ButtonGroupOptionsSerde.deserialize`:
`current_value = ui_value if ui_value is not None else self.default_value`
then `[self.options[val] for val in current_value]`. The input `Option` is
Python `None`; the output `Option` is the possible `IndexError` of the
subscript (`none` = exception). -/
def ButtonGroupOptionsSerde.deserialize (s : ButtonGroupOptionsSerde)
    (ui_value : Option (List Nat)) : Option (List String) :=
  let current_value := ui_value.getD s.default_value
  mapOption (fun val => s.options[val]?) current_value

/-- `ButtonGroupFeedbackSerde` (button.py lines 116-134). -/
structure ButtonGroupFeedbackSerde where
  index_to_score_mapping : Option (List Nat)
deriving DecidableEq, Repr

/-- `ButtonGroupFeedbackSerde.serialize`: `[]` on `None`, else `[value]`. -/
def ButtonGroupFeedbackSerde.serialize (_s : ButtonGroupFeedbackSerde)
    (value : Option Nat) : List Nat :=
  match value with
  | none => []
  | some v => [v]

/-- `ButtonGroupFeedbackSerde.deserialize`: returns `None` on `None` input,
else `ui_value[0]` when no mapping is set, else
`self.index_to_score_mapping[ui_value[0]]`. The outer `Option` of the
result is the possible `IndexError` (`none` = exception), the inner
`Option` is the Python `None` return. -/
def ButtonGroupFeedbackSerde.deserialize (s : ButtonGroupFeedbackSerde)
    (ui_value : Option (List Nat)) : Option (Option Nat) :=
  match ui_value with
  | none => some none
  | some l =>
    match s.index_to_score_mapping with
    | none => l[0]?.map some
    | some m =>
      match l[0]? with
      | none => none
      | some i => m[i]?.map some

/-- `feedback` (button.py lines 676-752), the part that fixes the option
list and the serde before delegating to `_button_group`: for `"thumbs"`
the options are `["thumbs_up", "thumbs_down"]` with score mapping
`[1, 0]`; for `"smiles"` the five sentiment options with no mapping;
anything else raises a `StreamlitAPIException`. -/
def feedback_setup (options : String) :
    Except StreamlitAPIException (List String × ButtonGroupFeedbackSerde) :=
  if options = "thumbs" then
    .ok (["thumbs_up", "thumbs_down"], ⟨some [1, 0]⟩)
  else if options = "smiles" then
    .ok (["sad", "disappointed", "neutral", "happy", "very_happy"], ⟨none⟩)
  else
    .error ⟨"The options argument to st.feedback must be 'thumbs' or 'smiles'. The argument passed was '" ++ options ++ "'."⟩

section PyIndexLemmas

variable {α : Type} [DecidableEq α]

theorem pyIndex_lt_length {l : List α} {a : α} {i : Nat}
    (h : pyIndex l a = some i) : i < l.length := by
  induction l generalizing i with
  | nil => simp [pyIndex] at h
  | cons x xs ih =>
    simp only [pyIndex] at h
    split at h
    · simp only [Option.some.injEq] at h
      subst h
      simp
    · cases hx : pyIndex xs a with
      | none => simp [hx] at h
      | some j =>
        simp [hx] at h
        subst h
        simpa using ih hx

theorem getElem?_pyIndex {l : List α} {a : α} {i : Nat}
    (h : pyIndex l a = some i) : l[i]? = some a := by
  induction l generalizing i with
  | nil => simp [pyIndex] at h
  | cons x xs ih =>
    simp only [pyIndex] at h
    split at h
    · simp only [Option.some.injEq] at h
      subst h
      simp_all
    · cases hx : pyIndex xs a with
      | none => simp [hx] at h
      | some j =>
        simp [hx] at h
        subst h
        simpa using ih hx

theorem pyIndex_of_mem {l : List α} {a : α} (h : a ∈ l) :
    ∃ i, pyIndex l a = some i := by
  induction l with
  | nil => simp at h
  | cons x xs ih =>
    by_cases hx : x = a
    · exact ⟨0, by simp [pyIndex, hx]⟩
    · have : a ∈ xs := by
        rcases List.mem_cons.mp h with h1 | h1
        · exact absurd h1.symm hx
        · exact h1
      obtain ⟨i, hi⟩ := ih this
      exact ⟨i + 1, by simp [pyIndex, hx, hi]⟩

theorem pyIndex_getElem? {l : List α} {a : α} {i : Nat} (hn : l.Nodup)
    (h : l[i]? = some a) : pyIndex l a = some i := by
  induction l generalizing i with
  | nil => simp at h
  | cons x xs ih =>
    rcases List.nodup_cons.mp hn with ⟨hx, hxs⟩
    cases i with
    | zero =>
      simp at h
      simp [pyIndex, h]
    | succ j =>
      simp at h
      have hmem : a ∈ xs := by
        rcases List.getElem?_eq_some.mp h with ⟨hlt, rfl⟩
        exact List.getElem_mem hlt
      have hne : x ≠ a := fun he => hx (he ▸ hmem)
      simp [pyIndex, hne, ih hxs h]

end PyIndexLemmas

/-- Serializing a list of in-domain values yields in-range indices that
deserialize back to the same values, provided the options are duplicate
free. -/
theorem mapOption_pyIndex_roundtrip {options : List String} :
    ∀ {sel : List String}, (∀ v ∈ sel, v ∈ options) →
      ∃ is, mapOption (fun val => pyIndex options val) sel = some is ∧
        (∀ i ∈ is, i < options.length) ∧
        mapOption (fun val => options[val]?) is = some sel := by
  intro sel
  induction sel with
  | nil => exact fun _ => ⟨[], rfl, by simp, rfl⟩
  | cons v sel ih =>
    intro hsub
    obtain ⟨i, hi⟩ := pyIndex_of_mem (hsub v (List.mem_cons_self v sel))
    obtain ⟨is, h1, h2, h3⟩ := ih (fun w hw => hsub w (List.mem_cons_of_mem v hw))
    refine ⟨i :: is, ?_, ?_, ?_⟩
    · simp [mapOption, hi, h1]
    · intro j hj
      rcases List.mem_cons.mp hj with rfl | hj
      · exact pyIndex_lt_length hi
      · exact h2 j hj
    · simp [mapOption, getElem?_pyIndex hi, h3]

/-- Deserializing a list of in-range indices yields values that serialize
back to the same indices, provided the options are duplicate free. -/
theorem mapOption_getElem_roundtrip {options : List String} (hnd : options.Nodup) :
    ∀ {idxs : List Nat}, (∀ i ∈ idxs, i < options.length) →
      ∃ vs, mapOption (fun val => options[val]?) idxs = some vs ∧
        mapOption (fun val => pyIndex options val) vs = some idxs := by
  intro idxs
  induction idxs with
  | nil => exact fun _ => ⟨[], rfl, rfl⟩
  | cons i idxs ih =>
    intro hlt
    have hi : i < options.length := hlt i (List.mem_cons_self i idxs)
    obtain ⟨vs, h1, h2⟩ := ih (fun j hj => hlt j (List.mem_cons_of_mem i hj))
    have hget : options[i]? = some options[i] := List.getElem?_eq_getElem hi
    refine ⟨options[i] :: vs, ?_, ?_⟩
    · simp [mapOption, hget, h1]
    · simp [mapOption, pyIndex_getElem? hnd hget, h2]

/-- C1: for every duplicate-free option list, `ButtonGroupOptionsSerde.serialize`
followed by `deserialize` returns the selected values unchanged (via in-range
indices), and `deserialize` followed by `serialize` returns the index list
unchanged whenever every index is in range of the option list. -/
theorem optionsSerde_serialize_deserialize_roundtrip
    (options : List String) (dv : List Nat) (sel : List String) (idxs : List Nat)
    (hnd : options.Nodup) (hsub : ∀ v ∈ sel, v ∈ options)
    (hlt : ∀ i ∈ idxs, i < options.length) :
    (∃ is, (ButtonGroupOptionsSerde.mk options dv).serialize (some sel) = some is ∧
      (∀ i ∈ is, i < options.length) ∧
      (ButtonGroupOptionsSerde.mk options dv).deserialize (some is) = some sel) ∧
    (∃ vs, (ButtonGroupOptionsSerde.mk options dv).deserialize (some idxs) = some vs ∧
      (ButtonGroupOptionsSerde.mk options dv).serialize (some vs) = some idxs) := by
  constructor
  · obtain ⟨is, h1, h2, h3⟩ := mapOption_pyIndex_roundtrip hsub
    exact ⟨is, h1, h2, h3⟩
  · obtain ⟨vs, h1, h2⟩ := mapOption_getElem_roundtrip hnd hlt
    exact ⟨vs, h1, h2⟩

/-- Witness for C1 at options `["a", "b"]`, selection `["b"]`, indices `[0]`. -/
theorem optionsSerde_serialize_deserialize_roundtrip_witness :
    (∃ is, (ButtonGroupOptionsSerde.mk ["a", "b"] []).serialize (some ["b"]) = some is ∧
      (∀ i ∈ is, i < (["a", "b"] : List String).length) ∧
      (ButtonGroupOptionsSerde.mk ["a", "b"] []).deserialize (some is) = some ["b"]) ∧
    (∃ vs, (ButtonGroupOptionsSerde.mk ["a", "b"] []).deserialize (some [0]) = some vs ∧
      (ButtonGroupOptionsSerde.mk ["a", "b"] []).serialize (some vs) = some [0]) :=
  optionsSerde_serialize_deserialize_roundtrip ["a", "b"] [] ["b"] [0]
    (by decide) (by decide) (by decide)

/-- C3: `feedback` with `options="thumbs"` installs the score mapping
`[1, 0]` over options `["thumbs_up", "thumbs_down"]`, and that serde maps
the client's selected index 0 to score 1 (thumbs up) and selected index 1
to score 0 (thumbs down). -/
theorem feedback_thumbs_score_mapping :
    feedback_setup "thumbs" =
      .ok (["thumbs_up", "thumbs_down"], ButtonGroupFeedbackSerde.mk (some [1, 0])) ∧
    (ButtonGroupFeedbackSerde.mk (some [1, 0])).deserialize (some [0]) = some (some 1) ∧
    (ButtonGroupFeedbackSerde.mk (some [1, 0])).deserialize (some [1]) = some (some 0) := by
  refine ⟨?_, rfl, rfl⟩
  rfl

/-- C10: `ButtonSerde.deserialize` is total on `bool | None` inputs and
returns `False` for `None`, `False` for `False` and `True` for `True`: a
button whose widget has no client value yet reads as not clicked. -/
theorem buttonSerde_deserialize_total :
    (∀ ui : Option Bool, ButtonSerde.deserialize {} ui = ui.getD false) ∧
    ButtonSerde.deserialize {} none = false ∧
    ButtonSerde.deserialize {} (some false) = false ∧
    ButtonSerde.deserialize {} (some true) = true := by
  refine ⟨fun ui => ?_, rfl, rfl, rfl⟩
  cases ui with
  | none => rfl
  | some b => cases b <;> rfl

/-- An injective code for lists of naturals, built from Cantor pairing:
the empty list is 0, `a :: l` is `pair a (code l) + 1`. -/
def encodeNatList : List Nat → Nat
  | [] => 0
  | a :: l => Nat.pair a (encodeNatList l) + 1

theorem encodeNatList_injective : Function.Injective encodeNatList := by
  intro l1
  induction l1 with
  | nil =>
    intro l2 h
    cases l2 with
    | nil => rfl
    | cons b m => simp [encodeNatList] at h
  | cons a l ih =>
    intro l2 h
    cases l2 with
    | nil => simp [encodeNatList] at h
    | cons b m =>
      simp only [encodeNatList, Nat.add_right_cancel_iff] at h
      rcases Nat.pair_eq_pair.mp h with ⟨h1, h2⟩
      rw [h1, ih h2]

theorem char_toNat_injective : Function.Injective Char.toNat := by
  intro a b h
  rw [← Char.ofNat_toNat a, ← Char.ofNat_toNat b, h]

/-- An injective code for strings: the codes of the characters. -/
def encodeString (s : String) : Nat :=
  encodeNatList (s.data.map Char.toNat)

theorem encodeString_injective : Function.Injective encodeString := by
  intro a b h
  have hd := (List.map_injective_iff.mpr char_toNat_injective)
    (encodeNatList_injective h)
  cases a
  cases b
  exact congrArg String.mk hd

/-- An injective code for lists of strings. -/
def encodeStringList (l : List String) : Nat :=
  encodeNatList (l.map encodeString)

theorem encodeStringList_injective : Function.Injective encodeStringList :=
  fun _ _ h =>
    (List.map_injective_iff.mpr encodeString_injective) (encodeNatList_injective h)

/-- An injective code for lists of booleans. -/
def encodeBoolList (l : List Bool) : Nat :=
  encodeNatList (l.map Bool.toNat)

theorem bool_toNat_injective : Function.Injective Bool.toNat := by
  intro a b h
  cases a <;> cases b <;> simp_all [Bool.toNat]

theorem encodeBoolList_injective : Function.Injective encodeBoolList :=
  fun _ _ h =>
    (List.map_injective_iff.mpr bool_toNat_injective) (encodeNatList_injective h)

/-- An injective code for an optional string (the `page` hash, `None`
outside a script-run context). -/
def encodeOptionString : Option String → Nat
  | none => 0
  | some s => encodeString s + 1

theorem encodeOptionString_injective : Function.Injective encodeOptionString := by
  intro a b h
  cases a <;> cases b <;> simp_all [encodeOptionString]
  exact encodeString_injective h

/-- Modelled from the spec: `compute_widget_id` is imported from
`streamlit.runtime.state.common`, which is not part of this excerpt. The
spec describes it as "a content-derived hash combining widget kind,
formatted options, default selection, and the active page identifier, used
as a stable key so that repeated script executions reconcile to the same
logical widget instance", and the call in `_button_group` (button.py lines
803-811) passes the widget kind, the formatted options, the default
selection, the `use_container_width` flag and the active page identifier.
It is modelled as a collision-free (injective) code of exactly that
content. -/
def compute_widget_id (element_type : String) (options : List String)
    (default : List Bool) (use_container_width : Bool) (page : Option String) : Nat :=
  encodeNatList [encodeString element_type, encodeStringList options,
    encodeBoolList default, Bool.toNat use_container_width, encodeOptionString page]

/-- C2: two widget-constructor calls compute the same identifier exactly
when their widget kind, formatted options, default selection,
`use_container_width` flag, and active page identifier all agree: equal
fields give the same identifier, and a difference in any one field changes
it. -/
theorem compute_widget_id_eq_iff
    (e1 e2 : String) (o1 o2 : List String) (d1 d2 : List Bool)
    (u1 u2 : Bool) (p1 p2 : Option String) :
    compute_widget_id e1 o1 d1 u1 p1 = compute_widget_id e2 o2 d2 u2 p2 ↔
      e1 = e2 ∧ o1 = o2 ∧ d1 = d2 ∧ u1 = u2 ∧ p1 = p2 := by
  constructor
  · intro h
    have hl := encodeNatList_injective h
    simp only [List.cons.injEq, and_true] at hl
    obtain ⟨h1, h2, h3, h4, h5⟩ := hl
    exact ⟨encodeString_injective h1, encodeStringList_injective h2,
      encodeBoolList_injective h3, bool_toNat_injective h4,
      encodeOptionString_injective h5⟩
  · rintro ⟨rfl, rfl, rfl, rfl, rfl⟩
    rfl

/-- A `streamlit.navigation.page.StreamlitPage` as consumed by
`navigation.py` and `_page_link`. The class itself is outside the excerpt,
so the fields it computes are opaque data here: `script_hash` is
`_script_hash` (derived by `st.Page` from the path or callable, not from
the title), `page` is `some path` when `_page` is a `Path` and `none` when
it is a callable, `url_path` is the `url_path` property. The
`_can_be_called` flag only gates `Page.run()`, which is outside the
excerpt, and is not modelled. -/
structure StreamlitPage where
  title : String
  icon : String
  default : Bool
  page : Option String
  script_hash : String
  url_path : String
deriving DecidableEq, Repr, Inhabited

/-- A `streamlit.source_util.PageInfo` entry as built by `navigation`
(navigation.py lines 135-141). -/
structure PageInfo where
  page_script_hash : String
  page_name : String
  icon : String
  script_path : String
  url_pathname : String
deriving DecidableEq, Repr

/-- `pages_from_nav_sections` (navigation.py lines 36-44): flatten the
section dict into one page list, sections in order, pages within each
section in order. -/
def pages_from_nav_sections
    (nav_sections : List (String × List StreamlitPage)) : List StreamlitPage :=
  (nav_sections.map Prod.snd).flatten

/-- The `pagehash_to_pageinfo` entry built for one page
(navigation.py lines 122-141): `script_path` is `str(page._page)` for a
`Path` and `""` for a callable. -/
def mkPageInfo (page : StreamlitPage) : PageInfo :=
  { page_script_hash := page.script_hash
    page_name := page.title
    icon := page.icon
    script_path := page.page.getD ""
    url_pathname := page.title.replace " " "_" }

/-- The validation loop of `navigation` (navigation.py lines 112-141),
iterating over the flattened pages in section order. For each page it
first rejects a second `default=True` page, then rejects a `_script_hash`
already present in `pagehash_to_pageinfo` (the error message names the
page title), and otherwise appends the page's info entry. -/
def navLoop :
    List StreamlitPage → Option StreamlitPage → List (String × PageInfo) →
    Except StreamlitAPIException (Option StreamlitPage × List (String × PageInfo))
  | [], default_page, acc => .ok (default_page, acc)
  | page :: rest, default_page, acc =>
    if page.default && default_page.isSome then
      .error ⟨"Multiple Pages specified with `default=True`. At most one Page can be set to default."⟩
    else if page.script_hash ∈ acc.map Prod.fst then
      .error ⟨"Multiple Pages specified with title " ++ page.title ++ ". Page titles should be unique. If not specified, title is inferred from the file path or callable name."⟩
    else
      navLoop rest (if page.default then some page else default_page)
        (acc ++ [(page.script_hash, mkPageInfo page)])

/-- The in-place mutation `default_page.default = True` performed on
`page_list[0]` (navigation.py lines 143-145): the first page of the first
non-empty section gets its `default` flag set. The page objects are shared
with the caller's `nav_sections`, so the mutation is modelled by rebuilding
the sections. -/
def set_first_page_default :
    List (String × List StreamlitPage) → List (String × List StreamlitPage)
  | [] => []
  | (hd, []) :: rest => (hd, []) :: set_first_page_default rest
  | (hd, p :: ps) :: rest => (hd, { p with default := true } :: ps) :: rest

/-- `Navigation.Position` of the outbound protobuf message. -/
inductive NavPosition where
  | sidebar
  | hidden
deriving DecidableEq, Repr

/-- One `app_pages` entry of the navigation message
(navigation.py lines 153-161). -/
structure NavAppPage where
  page_script_hash : String
  page_name : String
  icon : String
  is_default : Bool
  section_header : String
  url_pathname : String
deriving DecidableEq, Repr

/-- The navigation `ForwardMsg` (navigation.py lines 147-161 and 184). -/
structure NavigationMsg where
  position : NavPosition
  sections : List String
  app_pages : List NavAppPage
  page_script_hash : String
deriving DecidableEq, Repr

/-- The slice of the script-run context that `navigation` interacts with:
`ctx.pages_manager.get_page_script(fallback_page_hash=...)` lives outside
the excerpt and is modelled as a function from the fallback hash to the
`page_script_hash` of the found page, or `none`. -/
structure ScriptRunCtx where
  get_page_script : String → Option String

/-- Everything `navigation` does observably once validation has passed:
the `set_pages` call, the enqueued message, whether a page-not-found
message was sent first, the computed default page, the caller's sections
after the in-place default mutation, and the returned page. -/
structure NavResult where
  set_pages : List (String × PageInfo)
  msg : NavigationMsg
  page_not_found_sent : Bool
  default_page : StreamlitPage
  pages_after : List (String × List StreamlitPage)
  returned_page : StreamlitPage

/-- `nav_sections = {"": pages} if isinstance(pages, list) else pages`
(navigation.py line 98). -/
def nav_sections_of
    (pages : List StreamlitPage ⊕ List (String × List StreamlitPage)) :
    List (String × List StreamlitPage) :=
  match pages with
  | .inl l => [("", l)]
  | .inr d => d

/-- The tail of `navigation` (navigation.py lines 147-189) once validation
has passed and the default page is known: build the navigation message
from the (possibly mutated) sections, hand the page-info map to the pages
manager, ask it for the page to run with the default page's hash as
fallback, send a page-not-found message when nothing matches, and return
the chosen page. -/
def navigation_finish (ctx : ScriptRunCtx)
    (nav_sections : List (String × List StreamlitPage))
    (pagehash_to_pageinfo : List (String × PageInfo))
    (default_page : StreamlitPage) (position : String) : NavResult :=
  let page_list := pages_from_nav_sections nav_sections
  let msg_position :=
    if position = "hidden" then NavPosition.hidden else NavPosition.sidebar
  let app_pages := nav_sections.flatMap (fun s =>
    s.2.map (fun p =>
      { page_script_hash := p.script_hash
        page_name := p.title
        icon := p.icon
        is_default := p.default
        section_header := s.1
        url_pathname := p.title.replace " " "_" }))
  let found_page := ctx.get_page_script default_page.script_hash
  let matching :=
    match found_page with
    | some found_hash => page_list.filter (fun p => p.script_hash = found_hash)
    | none => []
  let page_to_return :=
    match matching with
    | p :: _ => p
    | [] => default_page
  { set_pages := pagehash_to_pageinfo
    msg :=
      { position := msg_position
        sections := nav_sections.map Prod.fst
        app_pages := app_pages
        page_script_hash := page_to_return.script_hash }
    page_not_found_sent := matching.isEmpty
    default_page := default_page
    pages_after := nav_sections
    returned_page := page_to_return }

/-- `navigation` (navigation.py lines 53-189). Returns `ok none` when
there is no script-run context (Python returns `None`), `error` when a
`StreamlitAPIException` is raised before any message is built or state is
set, and `ok (some r)` with the full observable outcome otherwise. -/
def navigation (ctx : Option ScriptRunCtx)
    (pages : List StreamlitPage ⊕ List (String × List StreamlitPage))
    (position : String) :
    Except StreamlitAPIException (Option NavResult) :=
  match ctx with
  | none => .ok none
  | some ctx =>
    let nav_sections := nav_sections_of pages
    let page_list := pages_from_nav_sections nav_sections
    if page_list.isEmpty then
      .error ⟨"`st.navigation` must be called with at least one `st.Page`."⟩
    else
      match navLoop page_list none [] with
      | .error e => .error e
      | .ok (found_default, pagehash_to_pageinfo) =>
        match found_default with
        | some default_page =>
          .ok (some (navigation_finish ctx nav_sections pagehash_to_pageinfo
            default_page position))
        | none =>
          let nav_sections := set_first_page_default nav_sections
          let default_page := (pages_from_nav_sections nav_sections).headI
          .ok (some (navigation_finish ctx nav_sections pagehash_to_pageinfo
            default_page position))

theorem pages_from_nav_sections_nil : pages_from_nav_sections [] = [] := rfl

theorem pages_from_nav_sections_cons (hd : String) (l : List StreamlitPage)
    (ns : List (String × List StreamlitPage)) :
    pages_from_nav_sections ((hd, l) :: ns) = l ++ pages_from_nav_sections ns := by
  simp [pages_from_nav_sections]

/-- C5: with a script-run context present, a page collection that flattens
to no pages at all (an empty list, or a dict whose section lists are all
empty) makes `navigation` raise a `StreamlitAPIException` before any
navigation message is built or any state is set (the error result carries
no message and no `set_pages` call). -/
theorem navigation_empty_pages_raises (ctx : ScriptRunCtx)
    (pages : List StreamlitPage ⊕ List (String × List StreamlitPage))
    (position : String)
    (h : pages_from_nav_sections (nav_sections_of pages) = []) :
    navigation (some ctx) pages position =
      .error ⟨"`st.navigation` must be called with at least one `st.Page`."⟩ := by
  simp [navigation, h]

/-- Witness for C5 at the empty page list. -/
theorem navigation_empty_pages_raises_witness :
    navigation (some ⟨fun _ => none⟩) (.inl ([] : List StreamlitPage)) "sidebar" =
      .error ⟨"`st.navigation` must be called with at least one `st.Page`."⟩ :=
  navigation_empty_pages_raises ⟨fun _ => none⟩ (.inl []) "sidebar" rfl

/-- The validation loop raises whenever the pages still to be processed,
together with an already-found default, contain at least two
`default=True` pages. -/
theorem navLoop_two_defaults (ps : List StreamlitPage) :
    ∀ (dflt : Option StreamlitPage) (acc : List (String × PageInfo)),
      2 ≤ (ps.filter (fun p => p.default)).length +
        (if dflt.isSome then 1 else 0) →
      ∃ e, navLoop ps dflt acc = .error e := by
  induction ps with
  | nil =>
    intro dflt acc h
    cases dflt <;> simp at h
  | cons p ps ih =>
    intro dflt acc h
    by_cases hd : p.default
    · cases dflt with
      | some d =>
        exact ⟨⟨"Multiple Pages specified with `default=True`. At most one Page can be set to default."⟩,
          by simp [navLoop, hd]⟩
      | none =>
        by_cases hc : p.script_hash ∈ acc.map Prod.fst
        · exact ⟨⟨"Multiple Pages specified with title " ++ p.title ++ ". Page titles should be unique. If not specified, title is inferred from the file path or callable name."⟩,
            by simp [navLoop, hd, hc]⟩
        · have h2 : 2 ≤ (ps.filter (fun q => q.default)).length + 1 := by
            simp [List.filter_cons, hd] at h
            omega
          obtain ⟨e, he⟩ :=
            ih (some p) (acc ++ [(p.script_hash, mkPageInfo p)]) (by simpa using h2)
          exact ⟨e, by simp [navLoop, hd, hc, he]⟩
    · by_cases hc : p.script_hash ∈ acc.map Prod.fst
      · exact ⟨⟨"Multiple Pages specified with title " ++ p.title ++ ". Page titles should be unique. If not specified, title is inferred from the file path or callable name."⟩,
          by simp [navLoop, hd, hc]⟩
      · have h2 : 2 ≤ (ps.filter (fun q => q.default)).length +
            (if dflt.isSome then 1 else 0) := by
          simpa [List.filter_cons, hd] using h
        obtain ⟨e, he⟩ := ih dflt (acc ++ [(p.script_hash, mkPageInfo p)]) h2
        exact ⟨e, by simp [navLoop, hd, hc, he]⟩

/-- C6: with a script-run context present, a page collection containing
two or more pages with `default=True` makes `navigation` raise a
`StreamlitAPIException`. -/
theorem navigation_multiple_defaults_raises (ctx : ScriptRunCtx)
    (pages : List StreamlitPage ⊕ List (String × List StreamlitPage))
    (position : String)
    (h : 2 ≤ ((pages_from_nav_sections (nav_sections_of pages)).filter
      (fun p => p.default)).length) :
    ∃ e, navigation (some ctx) pages position = .error e := by
  have hne : (pages_from_nav_sections (nav_sections_of pages)).isEmpty = false := by
    cases hplc : pages_from_nav_sections (nav_sections_of pages) with
    | nil => rw [hplc] at h; simp at h
    | cons a l => rfl
  obtain ⟨e, he⟩ :=
    navLoop_two_defaults (pages_from_nav_sections (nav_sections_of pages)) none []
      (by simpa using h)
  exact ⟨e, by simp [navigation, hne, he]⟩

/-- Witness for C6 at two pages both marked default. -/
theorem navigation_multiple_defaults_raises_witness :
    ∃ e, navigation (some ⟨fun _ => none⟩)
      (.inl [{ title := "A", icon := "", default := true, page := none,
               script_hash := "h1", url_path := "a" },
             { title := "B", icon := "", default := true, page := none,
               script_hash := "h2", url_path := "b" }]) "sidebar" = .error e :=
  navigation_multiple_defaults_raises ⟨fun _ => none⟩
    (.inl [{ title := "A", icon := "", default := true, page := none,
             script_hash := "h1", url_path := "a" },
           { title := "B", icon := "", default := true, page := none,
             script_hash := "h2", url_path := "b" }]) "sidebar" (by decide)

/-- When the validation loop succeeds, the accumulated keys together with
the `_script_hash`es of the processed pages are pairwise distinct: the
loop checks each new hash against `pagehash_to_pageinfo`. -/
theorem navLoop_ok_nodup {ps : List StreamlitPage} :
    ∀ {dflt : Option StreamlitPage} {acc : List (String × PageInfo)}
      {r : Option StreamlitPage × List (String × PageInfo)},
      (acc.map Prod.fst).Nodup →
      navLoop ps dflt acc = .ok r →
      ((acc.map Prod.fst) ++ ps.map (fun p => p.script_hash)).Nodup := by
  induction ps with
  | nil =>
    intro dflt acc r hacc _
    simpa using hacc
  | cons p ps ih =>
    intro dflt acc r hacc h
    simp only [navLoop] at h
    split at h
    · cases h
    · split at h
      · cases h
      · rename_i hmem
        have hacc' : (((acc ++ [(p.script_hash, mkPageInfo p)]).map Prod.fst)).Nodup := by
          simpa [List.nodup_append, hacc] using hmem
        have hres := ih hacc' h
        simp only [List.map_append] at hres
        simpa [List.append_assoc] using hres

/-- C4 (amended): with a script-run context present, a page collection in
which two pages share a `_script_hash` makes `navigation` raise a
`StreamlitAPIException` (whose message names the page title). Sharing a
title alone is not rejected; the check is on `page._script_hash`. -/
theorem navigation_duplicate_hash_raises (ctx : ScriptRunCtx)
    (pages : List StreamlitPage ⊕ List (String × List StreamlitPage))
    (position : String)
    (h : ¬ ((pages_from_nav_sections (nav_sections_of pages)).map
      (fun p => p.script_hash)).Nodup) :
    ∃ e, navigation (some ctx) pages position = .error e := by
  have hne : (pages_from_nav_sections (nav_sections_of pages)).isEmpty = false := by
    cases hplc : pages_from_nav_sections (nav_sections_of pages) with
    | nil => rw [hplc] at h; simp at h
    | cons a l => rfl
  cases hnav : navLoop (pages_from_nav_sections (nav_sections_of pages)) none [] with
  | error e => exact ⟨e, by simp [navigation, hne, hnav]⟩
  | ok r => exact absurd (by simpa using navLoop_ok_nodup (by simp) hnav) h

/-- Witness for the amended C4 at two pages sharing `_script_hash` `"h"`. -/
theorem navigation_duplicate_hash_raises_witness :
    ∃ e, navigation (some ⟨fun _ => none⟩)
      (.inl [{ title := "A", icon := "", default := false, page := none,
               script_hash := "h", url_path := "a" },
             { title := "B", icon := "", default := false, page := none,
               script_hash := "h", url_path := "b" }]) "sidebar" = .error e :=
  navigation_duplicate_hash_raises ⟨fun _ => none⟩
    (.inl [{ title := "A", icon := "", default := false, page := none,
             script_hash := "h", url_path := "a" },
           { title := "B", icon := "", default := false, page := none,
             script_hash := "h", url_path := "b" }]) "sidebar" (by decide)

/-- Counterexample to C4 as stated: two pages share the title `"Home"` but
have distinct `_script_hash`es, and `navigation` completes without raising
any `StreamlitAPIException` — the duplicate check of navigation.py lines
127-133 keys on `page._script_hash`, not on the title, even though its
error message speaks of titles. -/
theorem navigation_duplicate_title_not_raised :
    ({ title := "Home", icon := "", default := false, page := some "a.py",
       script_hash := "h1", url_path := "home" } : StreamlitPage).title =
      ({ title := "Home", icon := "", default := false, page := some "b.py",
         script_hash := "h2", url_path := "home" } : StreamlitPage).title ∧
    (navigation (some ⟨fun h => some h⟩)
      (.inl [{ title := "Home", icon := "", default := false, page := some "a.py",
               script_hash := "h1", url_path := "home" },
             { title := "Home", icon := "", default := false, page := some "b.py",
               script_hash := "h2", url_path := "home" }]) "sidebar").isOk = true :=
  ⟨rfl, rfl⟩

/-- Setting the default flag on the first flattened page rewrites the
flattened list's head and nothing else. -/
theorem pages_from_set_first_page_default
    {ns : List (String × List StreamlitPage)} {p : StreamlitPage}
    {rest : List StreamlitPage}
    (h : pages_from_nav_sections ns = p :: rest) :
    pages_from_nav_sections (set_first_page_default ns) =
      { p with default := true } :: rest := by
  induction ns with
  | nil => simp [pages_from_nav_sections_nil] at h
  | cons s ns ih =>
    obtain ⟨hd, pl⟩ := s
    cases pl with
    | nil =>
      rw [pages_from_nav_sections_cons, List.nil_append] at h
      rw [set_first_page_default, pages_from_nav_sections_cons, List.nil_append]
      exact ih h
    | cons q qs =>
      rw [pages_from_nav_sections_cons] at h
      rw [List.cons_append, List.cons.injEq] at h
      obtain ⟨rfl, hrest⟩ := h
      rw [set_first_page_default, pages_from_nav_sections_cons]
      rw [List.cons_append, hrest]

/-- When no page is marked default and the hashes are distinct and fresh
for the accumulator, the validation loop succeeds with no default found
and appends one info entry per page. -/
theorem navLoop_no_default {ps : List StreamlitPage} :
    ∀ {acc : List (String × PageInfo)},
      (∀ p ∈ ps, p.default = false) →
      (ps.map (fun p => p.script_hash)).Nodup →
      (∀ p ∈ ps, p.script_hash ∉ acc.map Prod.fst) →
      navLoop ps none acc =
        .ok (none, acc ++ ps.map (fun p => (p.script_hash, mkPageInfo p))) := by
  induction ps with
  | nil =>
    intro acc _ _ _
    simp [navLoop]
  | cons p ps ih =>
    intro acc hdef hnodup hdisj
    have hd : p.default = false := hdef p (List.mem_cons_self p ps)
    have hm : p.script_hash ∉ acc.map Prod.fst := hdisj p (List.mem_cons_self p ps)
    rcases List.nodup_cons.mp hnodup with ⟨hph, hnd⟩
    have hrec := @ih (acc ++ [(p.script_hash, mkPageInfo p)])
      (fun q hq => hdef q (List.mem_cons_of_mem p hq)) hnd
      (by
        intro q hq
        simp only [List.map_append, List.map_cons, List.map_nil, List.mem_append,
          List.mem_singleton]
        rintro (hq1 | hq2)
        · exact hdisj q (List.mem_cons_of_mem p hq) hq1
        · exact hph (List.mem_map.mpr ⟨q, hq, hq2⟩))
    rw [navLoop, if_neg (by simp [hd]), if_neg hm, hd]
    simp [hrec]

/-- C9: with a script-run context present, when no page of a valid page
collection carries `default=True`, `navigation` succeeds, the first page
of the flattened page list (sections in order, pages within each section
in order) becomes the default page, and that page's `default` flag is set
to `True` in the caller-visible page objects. -/
theorem navigation_first_page_becomes_default (ctx : ScriptRunCtx)
    (pages : List StreamlitPage ⊕ List (String × List StreamlitPage))
    (position : String) (p : StreamlitPage) (rest : List StreamlitPage)
    (hflat : pages_from_nav_sections (nav_sections_of pages) = p :: rest)
    (hnodef : ∀ q ∈ pages_from_nav_sections (nav_sections_of pages),
      q.default = false)
    (hnodup : ((pages_from_nav_sections (nav_sections_of pages)).map
      (fun q => q.script_hash)).Nodup) :
    ∃ r, navigation (some ctx) pages position = .ok (some r) ∧
      r.default_page = { p with default := true } ∧
      pages_from_nav_sections r.pages_after =
        { p with default := true } :: rest := by
  have hset := pages_from_set_first_page_default hflat
  have hloop := @navLoop_no_default _ [] hnodef hnodup (by simp)
  rw [hflat] at hloop
  simp only [navigation, hflat, hloop, List.isEmpty_cons, Bool.false_eq_true,
    if_false, List.nil_append, hset, List.headI]
  refine ⟨_, rfl, ?_, ?_⟩
  · simp [navigation_finish]
  · simpa [navigation_finish] using hset

/-- Witness for C9 at a single page without a default flag. -/
theorem navigation_first_page_becomes_default_witness :
    ∃ r, navigation (some ⟨fun _ => none⟩)
      (.inl [{ title := "A", icon := "", default := false, page := some "a.py",
               script_hash := "h", url_path := "a" }]) "sidebar" = .ok (some r) ∧
      r.default_page = { title := "A", icon := "", default := true,
                         page := some "a.py", script_hash := "h",
                         url_path := "a" } ∧
      pages_from_nav_sections r.pages_after =
        [{ title := "A", icon := "", default := true, page := some "a.py",
           script_hash := "h", url_path := "a" }] :=
  navigation_first_page_becomes_default ⟨fun _ => none⟩
    (.inl [{ title := "A", icon := "", default := false, page := some "a.py",
             script_hash := "h", url_path := "a" }]) "sidebar"
    { title := "A", icon := "", default := false, page := some "a.py",
      script_hash := "h", url_path := "a" } []
    rfl (by decide) (by decide)

/-- `FORM_DOCS_INFO` (button.py lines 68-72). -/
def FORM_DOCS_INFO : String :=
  "\n\nFor more information, refer to the\n[documentation for forms](https://docs.streamlit.io/develop/api-reference/execution-flow/st.form).\n"

/-- The `Button` protobuf fields populated by `_button`
(button.py lines 1069-1080). -/
structure ButtonProto where
  id : Nat
  label : String
  default : Bool
  is_form_submitter : Bool
  form_id : String
  type : String
  use_container_width : Bool
  disabled : Bool
  help : Option String
deriving DecidableEq, Repr

/-- The `DownloadButton` protobuf fields populated by `_download_button`
(button.py lines 894-906). -/
structure DownloadButtonProto where
  id : Nat
  use_container_width : Bool
  label : String
  default : Bool
  type : String
  url : String
  disabled : Bool
  help : Option String
deriving DecidableEq, Repr

/-- The `LinkButton` protobuf fields populated by `_link_button`
(button.py lines 935-943). -/
structure LinkButtonProto where
  label : String
  url : String
  type : String
  use_container_width : Bool
  disabled : Bool
  help : Option String
deriving DecidableEq, Repr

/-- Observable calls a widget constructor makes into the external runtime,
in order: `register_widget`, `save_for_app_testing`, `_enqueue`. -/
inductive Effect where
  | register_widget (element_type : String) (id : Nat)
  | save_for_app_testing (id : Nat)
  | enqueue (element_type : String)
deriving DecidableEq, Repr

/-- The slice of external runtime state the button constructors consult:
whether a script-run context exists and its active script hash, whether
the Streamlit runtime exists, whether the enclosing delta generator is in
a form and that form's id, the raw client value `register_widget` feeds to
the deserializer, and the media-file URL the media file manager returns
for a download payload. -/
structure WidgetEnv where
  has_ctx : Bool
  active_script_hash : String
  runtime_exists : Bool
  in_form : Bool
  form_id : String
  ui_value : Option Bool
  media_url : String

/-- Modelled from the spec: the `compute_widget_id` call of `_button`
(button.py lines 1042-1052), an injective content code of the kwargs that
call passes. Like `compute_widget_id`, the function itself lives in
`streamlit.runtime.state.common`, outside this excerpt. -/
def compute_widget_id_button (label : String) (key : Option String)
    (hlp : Option String) (is_form_submitter : Bool) (type : String)
    (use_container_width : Bool) (page : Option String) : Nat :=
  encodeNatList [encodeString label, encodeOptionString key,
    encodeOptionString hlp, Bool.toNat is_form_submitter, encodeString type,
    Bool.toNat use_container_width, encodeOptionString page]

/-- Modelled from the spec: the `compute_widget_id` call of
`_download_button` (button.py lines 876-887), an injective content code of
the kwargs that call passes. -/
def compute_widget_id_download_button (label : String)
    (file_name : Option String) (mime : Option String) (key : Option String)
    (hlp : Option String) (type : String) (use_container_width : Bool)
    (page : Option String) : Nat :=
  encodeNatList [encodeString label, encodeOptionString file_name,
    encodeOptionString mime, encodeOptionString key, encodeOptionString hlp,
    encodeString type, Bool.toNat use_container_width, encodeOptionString page]

/-- `_button` (button.py lines 1019-1100): computes the widget id, rejects
buttons inside forms (and form submitters outside forms) when the runtime
exists, builds the proto, registers the widget, and enqueues. The returned
`Bool` is `button_state.value`, produced by `ButtonSerde.deserialize` on
the client value. `dedent(help)` on the tooltip is modelled as the
identity on the stored string. -/
def _button (env : WidgetEnv) (label : String) (key : Option String)
    (hlp : Option String) (is_form_submitter : Bool) (type : String)
    (disabled : Bool) (use_container_width : Bool) :
    Except StreamlitAPIException (Bool × ButtonProto × List Effect) :=
  let id := compute_widget_id_button label key hlp is_form_submitter type
    use_container_width (if env.has_ctx then some env.active_script_hash else none)
  if env.runtime_exists && (env.in_form && !is_form_submitter) then
    .error ⟨"`st.button()` can't be used in an `st.form()`." ++ FORM_DOCS_INFO⟩
  else if env.runtime_exists && (!env.in_form && is_form_submitter) then
    .error ⟨"`st.form_submit_button()` must be used inside an `st.form()`." ++ FORM_DOCS_INFO⟩
  else
    let button_proto : ButtonProto :=
      { id := id
        label := label
        default := false
        is_form_submitter := is_form_submitter
        form_id := env.form_id
        type := type
        use_container_width := use_container_width
        disabled := disabled
        help := hlp }
    .ok (ButtonSerde.deserialize {} env.ui_value, button_proto,
      [Effect.register_widget "button" id] ++
        (if env.has_ctx then [Effect.save_for_app_testing id] else []) ++
        [Effect.enqueue "button"])

/-- `ButtonMixin.button` (button.py lines 138-254): the `type` argument is
validated against `["primary", "secondary"]` before `_button` runs, so an
invalid type raises before the widget is registered or any message is
enqueued. -/
def button (env : WidgetEnv) (label : String) (key : Option String)
    (hlp : Option String) (type : String) (disabled : Bool)
    (use_container_width : Bool) :
    Except StreamlitAPIException (Bool × ButtonProto × List Effect) :=
  if type ∉ (["primary", "secondary"] : List String) then
    .error ⟨"The type argument to st.button must be \"primary\" or \"secondary\". \nThe argument passed was \"" ++ type ++ "\"."⟩
  else
    _button env label key hlp false type disabled use_container_width

/-- The payload of `st.download_button`: a string or binary data. File
objects are read into the same two shapes by `marshall_file` and are not
modelled separately. -/
inductive DownloadButtonData where
  | str (s : String)
  | bytes (b : List Nat)
deriving DecidableEq, Repr

/-- `marshall_file` (button.py lines 1108-1154) restricted to the modelled
payload shapes: resolves the default MIME type ("text/plain" for text,
"application/octet-stream" for binary), and obtains the media-file URL
from the media file manager when the runtime exists, else `""`. Returns
`(mimetype, file_url)`. -/
def marshall_file (data : DownloadButtonData) (mimetype : Option String)
    (runtime_exists : Bool) (media_url : String) : String × String :=
  let resolved :=
    match data with
    | .str _ => mimetype.getD "text/plain"
    | .bytes _ => mimetype.getD "application/octet-stream"
  (resolved, if runtime_exists then media_url else "")

/-- `_download_button` (button.py lines 853-923): computes the widget id,
rejects download buttons inside forms, builds the proto (with the
media-file URL from `marshall_file`), registers the widget, and
enqueues. -/
def _download_button (env : WidgetEnv) (label : String)
    (data : DownloadButtonData) (file_name : Option String)
    (mime : Option String) (key : Option String) (hlp : Option String)
    (type : String) (disabled : Bool) (use_container_width : Bool) :
    Except StreamlitAPIException (Bool × DownloadButtonProto × List Effect) :=
  let id := compute_widget_id_download_button label file_name mime key hlp
    type use_container_width
    (if env.has_ctx then some env.active_script_hash else none)
  if env.in_form then
    .error ⟨"`st.download_button()` can't be used in an `st.form()`." ++ FORM_DOCS_INFO⟩
  else
    let download_button_proto : DownloadButtonProto :=
      { id := id
        use_container_width := use_container_width
        label := label
        default := false
        type := type
        url := (marshall_file data mime env.runtime_exists env.media_url).2
        disabled := disabled
        help := hlp }
    .ok (ButtonSerde.deserialize {} env.ui_value, download_button_proto,
      [Effect.register_widget "download_button" id,
       Effect.enqueue "download_button"])

/-- `ButtonMixin.download_button` (button.py lines 256-435): the `type`
argument is validated before `_download_button` runs (the error message
names `st.button`, as in the source). -/
def download_button (env : WidgetEnv) (label : String)
    (data : DownloadButtonData) (file_name : Option String)
    (mime : Option String) (key : Option String) (hlp : Option String)
    (type : String) (disabled : Bool) (use_container_width : Bool) :
    Except StreamlitAPIException (Bool × DownloadButtonProto × List Effect) :=
  if type ∉ (["primary", "secondary"] : List String) then
    .error ⟨"The type argument to st.button must be \"primary\" or \"secondary\". \nThe argument passed was \"" ++ type ++ "\"."⟩
  else
    _download_button env label data file_name mime key hlp type disabled
      use_container_width

/-- `_link_button` (button.py lines 925-945): builds the proto and
enqueues; it raises nothing itself. -/
def _link_button (label : String) (url : String) (hlp : Option String)
    (type : String) (disabled : Bool) (use_container_width : Bool) :
    LinkButtonProto × List Effect :=
  ({ label := label
     url := url
     type := type
     use_container_width := use_container_width
     disabled := disabled
     help := hlp },
   [Effect.enqueue "link_button"])

/-- `ButtonMixin.link_button` (button.py lines 437-526): the `type`
argument is validated before `_link_button` runs. -/
def link_button (label : String) (url : String) (hlp : Option String)
    (type : String) (disabled : Bool) (use_container_width : Bool) :
    Except StreamlitAPIException (LinkButtonProto × List Effect) :=
  if type ∉ (["primary", "secondary"] : List String) then
    .error ⟨"The type argument to st.link_button must be \"primary\" or \"secondary\". \nThe argument passed was \"" ++ type ++ "\"."⟩
  else
    .ok (_link_button label url hlp type disabled use_container_width)

/-- C7: a `type` argument that is neither `"primary"` nor `"secondary"`
makes `button`, `download_button` and `link_button` each raise a
`StreamlitAPIException` immediately and synchronously: the error result
carries no widget registration and no enqueued message. -/
theorem invalid_button_type_raises (env : WidgetEnv) (label : String)
    (key : Option String) (hlp : Option String) (data : DownloadButtonData)
    (file_name : Option String) (mime : Option String) (url : String)
    (type : String) (disabled : Bool) (use_container_width : Bool)
    (h : type ∉ (["primary", "secondary"] : List String)) :
    button env label key hlp type disabled use_container_width =
      .error ⟨"The type argument to st.button must be \"primary\" or \"secondary\". \nThe argument passed was \"" ++ type ++ "\"."⟩ ∧
    download_button env label data file_name mime key hlp type disabled
        use_container_width =
      .error ⟨"The type argument to st.button must be \"primary\" or \"secondary\". \nThe argument passed was \"" ++ type ++ "\"."⟩ ∧
    link_button label url hlp type disabled use_container_width =
      .error ⟨"The type argument to st.link_button must be \"primary\" or \"secondary\". \nThe argument passed was \"" ++ type ++ "\"."⟩ := by
    refine ⟨?_, ?_, ?_⟩ <;> simp [button, download_button, link_button, h]

/-- Witness for C7 at `type = "tertiary"`. -/
theorem invalid_button_type_raises_witness :
    button ⟨false, "", false, false, "", none, ""⟩ "lbl" none none "tertiary"
        false false =
      .error ⟨"The type argument to st.button must be \"primary\" or \"secondary\". \nThe argument passed was \"tertiary\"."⟩ ∧
    download_button ⟨false, "", false, false, "", none, ""⟩ "lbl"
        (.str "data") none none none none "tertiary" false false =
      .error ⟨"The type argument to st.button must be \"primary\" or \"secondary\". \nThe argument passed was \"tertiary\"."⟩ ∧
    link_button "lbl" "https://a.example" none "tertiary" false false =
      .error ⟨"The type argument to st.link_button must be \"primary\" or \"secondary\". \nThe argument passed was \"tertiary\"."⟩ :=
  invalid_button_type_raises ⟨false, "", false, false, "", none, ""⟩ "lbl"
    none none (.str "data") none none "https://a.example" "tertiary" false
    false (by decide)

/-- The `PageLink` protobuf fields populated by `_page_link`
(button.py lines 947-1017). Unset proto3 string fields read as `""`. -/
structure PageLinkProto where
  disabled : Bool
  label : String
  icon : String
  help : String
  use_container_width : Bool
  page_script_hash : String
  page : String
  external : Bool
deriving DecidableEq, Repr

/-- The external state `_page_link` consults for non-URL pages:
`ctx.pages_manager.get_pages()` as a list of page-info entries,
`os.path.realpath(normalize_path_join(main_script_directory, page))` as an
opaque resolver (a filesystem operation), the basename of the main script
directory (used in the not-found message), and `validate_icon_or_emoji`
(streamlit.string_util, outside this excerpt) as an opaque icon
transformer. -/
structure PageLinkEnv where
  all_app_pages : List PageInfo
  resolve : String → String
  main_script_directory_basename : String
  validate_icon : String → String

/-- Modelled from the spec: `is_url` (streamlit.url_util, not in this
excerpt). The `page_link` docstring and the spec describe an external page
as a URL that "must start with http:// or https://"; the prefix test is
written on the character lists so that it evaluates by `decide`. -/
def is_url (s : String) : Bool :=
  "http://".data.isPrefixOf s.data || "https://".data.isPrefixOf s.data

/-- `_page_link` (button.py lines 947-1017). For a `StreamlitPage` the
proto points at the page's hash and url path, with the page title as the
fallback label. For a string that is an external URL, a missing or empty
label raises; otherwise the proto carries the URL with `external = True`
and is enqueued at once (the early return of line 987). For any other
string the path is resolved and looked up among the app's pages, and an
unresolved page (empty `page_script_hash`) raises. `dedent(help)` is
modelled as the identity on the stored string. -/
def _page_link (env : PageLinkEnv) (page : String ⊕ StreamlitPage)
    (label : Option String) (icon : Option String) (hlp : Option String)
    (disabled : Bool) (use_container_width : Option Bool) :
    Except StreamlitAPIException (PageLinkProto × List Effect) :=
  let proto0 : PageLinkProto :=
    { disabled := disabled
      label := label.getD ""
      icon := match icon with | some i => env.validate_icon i | none => ""
      help := hlp.getD ""
      use_container_width := use_container_width.getD false
      page_script_hash := ""
      page := ""
      external := false }
  match page with
  | .inr sp =>
    let proto1 :=
      { proto0 with
          page_script_hash := sp.script_hash
          page := sp.url_path
          label := if label = none then sp.title else proto0.label }
    if proto1.page_script_hash = "" then
      .error ⟨"Could not find page: `" ++ sp.url_path ++ "`. Must be the file path relative to the main script, from the directory: `" ++ env.main_script_directory_basename ++ "`. Only the main app file and files in the `pages/` directory are supported."⟩
    else
      .ok (proto1, [Effect.enqueue "page_link"])
  | .inl s =>
    if is_url s then
      if label = none || label = some "" then
        .error ⟨"The label param is required for external links used with st.page_link - please provide a label."⟩
      else
        .ok ({ proto0 with page := s, external := true },
          [Effect.enqueue "page_link"])
    else
      let requested_page := env.resolve s
      let proto1 :=
        match env.all_app_pages.find? (fun pd => pd.script_path = requested_page) with
        | some pd =>
          { proto0 with
              label := if label = none then pd.page_name.replace "_" " "
                else proto0.label
              page_script_hash := pd.page_script_hash
              page := pd.page_name }
        | none => proto0
      if proto1.page_script_hash = "" then
        .error ⟨"Could not find page: `" ++ s ++ "`. Must be the file path relative to the main script, from the directory: `" ++ env.main_script_directory_basename ++ "`. Only the main app file and files in the `pages/` directory are supported."⟩
      else
        .ok (proto1, [Effect.enqueue "page_link"])

/-- C8: for a page argument that is an external URL (a string starting
with `"http://"` or `"https://"`), `_page_link` raises a
`StreamlitAPIException` when the label is `None` or empty, and with a
non-empty label it enqueues the page-link message with `external` set to
true and the URL as the page. -/
theorem page_link_external_url (env : PageLinkEnv) (page : String)
    (label_bad label_ok : Option String) (l : String) (icon : Option String)
    (hlp : Option String) (disabled : Bool) (ucw : Option Bool)
    (hurl : is_url page = true)
    (hbad : label_bad = none ∨ label_bad = some "")
    (hok : label_ok = some l) (hl : l ≠ "") :
    _page_link env (.inl page) label_bad icon hlp disabled ucw =
      .error ⟨"The label param is required for external links used with st.page_link - please provide a label."⟩ ∧
    ∃ proto, _page_link env (.inl page) label_ok icon hlp disabled ucw =
        .ok (proto, [Effect.enqueue "page_link"]) ∧
      proto.external = true ∧ proto.page = page := by
  constructor
  · rcases hbad with rfl | rfl <;> simp [_page_link, hurl]
  · subst hok
    refine ⟨{ disabled := disabled,
              label := l,
              icon := (match icon with | some i => env.validate_icon i | none => ""),
              help := hlp.getD "",
              use_container_width := ucw.getD false,
              page_script_hash := "",
              page := page,
              external := true }, ?_, rfl, rfl⟩
    simp [_page_link, hurl, hl]

/-- Witness for C8 at the URL `"http://www.google.com"`. -/
theorem page_link_external_url_witness :
    _page_link ⟨[], fun s => s, "", fun i => i⟩ (.inl "http://www.google.com")
        none none none false none =
      .error ⟨"The label param is required for external links used with st.page_link - please provide a label."⟩ ∧
    ∃ proto, _page_link ⟨[], fun s => s, "", fun i => i⟩
          (.inl "http://www.google.com") (some "Google") none none false none =
        .ok (proto, [Effect.enqueue "page_link"]) ∧
      proto.external = true ∧ proto.page = "http://www.google.com" :=
  page_link_external_url ⟨[], fun s => s, "", fun i => i⟩
    "http://www.google.com" none (some "Google") "Google" none none false
    none (by decide) (Or.inl rfl) rfl (by decide)
